import Mathlib

/-
Verification of the `Historical` endpoint of the betfair historical-data
client (`betfairlightweight/endpoints/historical.py`), shallowly embedded
in Lean 4.  Python dictionaries become association lists, the HTTP layer
becomes an explicit outcome datatype, exceptions become an error sum, and
the Python heap (needed for default-argument aliasing) becomes an explicit
list of cells.
-/

namespace Betfair

/-- Python values appearing in request parameter sets: None, strings,
integers and lists. -/
inductive PyVal where
  | none
  | str (s : String)
  | int (n : Int)
  | list (xs : List PyVal)
deriving Repr

/-- Python `v is None`, the unset-sentinel test. -/
def PyVal.isNone : PyVal → Bool
  | .none => true
  | _ => false

/-- Parameter sets are ordered mappings from names to Python values,
mirroring the dict built from `locals()`. -/
abbrev Params := List (String × PyVal)

mutual

/-- Serialization of one Python value as by `json.dumps`. -/
def dumpsVal : PyVal → String
  | .none => "null"
  | .str s => "\"" ++ s ++ "\""
  | .int n => toString n
  | .list xs => "[" ++ dumpsSeq xs ++ "]"

/-- Serialization of the elements of a Python list, comma separated. -/
def dumpsSeq : List PyVal → String
  | [] => ""
  | [x] => dumpsVal x
  | x :: y :: xs => dumpsVal x ++ ", " ++ dumpsSeq (y :: xs)

end

/-- Serialization of the members of a dict, comma separated. -/
def dumpsMembers : Params → String
  | [] => ""
  | [(k, v)] => "\"" ++ k ++ "\": " ++ dumpsVal v
  | (k, v) :: p :: ps => "\"" ++ k ++ "\": " ++ dumpsVal v ++ ", " ++ dumpsMembers (p :: ps)

/-- Serialization of a parameter dict as by `json.dumps(params)`. -/
def dumps (ps : Params) : String :=
  "\x7b" ++ dumpsMembers ps ++ "\x7d"

/-- Modelled from the spec: `utils.clean_locals` is imported by the source
but its definition is not part of the given sources.  Per the spec's
request-construction contract it collects the caller's arguments into a
parameter set and drops every parameter whose value is the unset sentinel
(Python `None`), as well as the non-payload locals `self` and `session`. -/
def clean_locals (ls : Params) : Params :=
  ls.filter (fun kv => kv.1 != "self" && kv.1 != "session" && !kv.2.isNone)

/-- Whether a key is present in a serialized payload (dict membership). -/
def hasKey (ps : Params) (k : String) : Bool :=
  ps.any (fun kv => kv.1 == k)

/-- A Python object passed for the `session` argument: the `None` default,
or some object with an identity and a truthiness (Python `bool(x)`). -/
inductive PySession where
  | pyNone
  | session (id : Nat) (truthy : Bool)
deriving Repr, DecidableEq

/-- Python truthiness of a session argument: `None` is falsy, an object is
as truthy as its `bool()`. -/
def PySession.isTruthy : PySession → Bool
  | .pyNone => false
  | .session _ t => t

/-- Line 145, `session = session or self.client.session`: Python `or`
returns the left operand when it is truthy, else the right operand. -/
def resolve_session (sessionArg : PySession) (clientSession : PySession) : PySession :=
  if sessionArg.isTruthy then sessionArg else clientSession

/-- The read-only client context: session token, reusable HTTP session and
the two timeout values. -/
structure ClientContext where
  session_token : String
  session : PySession
  connect_timeout : Nat
  read_timeout : Nat
deriving Repr, DecidableEq

/-- The `historical_headers` property (lines 163-165). -/
def historical_headers (client : ClientContext) : List (String × String) :=
  [("ssoid", client.session_token), ("content-type", "application/json")]

/-- The `historical_url` property (lines 167-169). -/
def historical_url : String := "https://historicdata.betfair.com/api/"

/-- The POST that `request` issues (lines 148-153): target URL, serialized
body, headers, timeouts, and the session on which `.post` is invoked. -/
structure PostCall where
  sessionUsed : PySession
  url : String
  body : String
  headers : List (String × String)
  timeout : Nat × Nat
deriving Repr, DecidableEq

/-- Construction of the POST issued by `request` (lines 145-153). -/
def request_post (client : ClientContext) (method : String) (params : Params)
    (sessionArg : PySession) : PostCall :=
  { sessionUsed := resolve_session sessionArg client.session
    url := historical_url ++ method
    body := dumps params
    headers := historical_headers client
    timeout := (client.connect_timeout, client.read_timeout) }

/-- The HTTP response seen by `request` when the POST call itself does not
raise: a status code and the result of `.json()` on the body, `none` when
the body is unparsable (so `.json()` raises). -/
structure HttpResponse where
  status : Nat
  jsonBody : Option PyVal

/-- Outcome of evaluating `session.post(...)`: a response, a
`ConnectionError`, or some other exception (identified by a message). -/
inductive PostOutcome where
  | ok (r : HttpResponse)
  | connErr
  | exn (e : String)

/-- The cause argument of a raised `APIError`. -/
inductive Cause where
  | connectionErrorLit
  | caughtExn (e : String)
deriving Repr, DecidableEq

/-- Errors escaping `request`: the `APIError` raised on lines 154-157, the
raw JSON-decoding error raised by `response.json()` on line 159 (which is
not wrapped), and the status-check failure raised inside
`check_status_code` on line 160. -/
inductive ReqError where
  | apiError (resp : Option PyVal) (method : String) (params : Params) (cause : Cause)
  | jsonDecodeFailure
  | statusCodeFailure (status : Nat)

/-- Modelled from the spec: whether an escaping error is of the spec's
single `APIError` kind.  The exceptions module is not part of the given
sources; per the spec's error taxonomy the `APIError` kind covers the
literal `ConnectionError` tag, any other caught error, and a status-check
failure detail, while a raw JSON-decoding error is a distinct kind. -/
def ReqError.isAPIErrorKind : ReqError → Bool
  | .apiError _ _ _ _ => true
  | .statusCodeFailure _ => true
  | .jsonDecodeFailure => false

/-- Modelled from the spec: `utils.check_status_code` is imported by the
source but its definition is not part of the given sources.  Per the spec
it validates the HTTP status code and fails with a status-check failure
detail when the status does not indicate success. -/
def check_status_code (r : HttpResponse) : Except ReqError Unit :=
  if r.status = 200 then .ok () else .error (.statusCodeFailure r.status)

/-- The body of `Historical.request` (lines 139-161) after session
resolution: try the POST, wrapping a `ConnectionError` and any other
exception from the call in `APIError`; then parse the body as JSON (an
unparsable body raises the raw JSON error); then run the status check;
finally return the parsed data. -/
def request_result (method : String) (params : Params) (post : PostOutcome) :
    Except ReqError PyVal :=
  match post with
  | .connErr => .error (.apiError Option.none method params .connectionErrorLit)
  | .exn e => .error (.apiError Option.none method params (.caughtExn e))
  | .ok r =>
    match r.jsonBody with
    | Option.none => .error .jsonDecodeFailure
    | Option.some response_data =>
      match check_status_code r with
      | .error err => .error err
      | .ok _ => .ok response_data

/-- The characters after the last separator of a character list:
processing left to right, a separator resets the accumulator. -/
def lastSegmentAux (cur : List Char) : List Char → List Char
  | [] => cur.reverse
  | c :: cs => if c = '/' then lastSegmentAux [] cs else lastSegmentAux (c :: cur) cs

/-- Line 124, `file_path.split('/')[-1]`: the final `/`-delimited segment
of the path (empty when the path ends in `/`), since Python `str.split`
always returns a non-empty list whose last element is the text after the
last separator. -/
def split_last (file_path : String) : String :=
  String.mk (lastSegmentAux [] file_path.data)

/-- Whether a path string begins with the separator. -/
def startsWithSep (s : String) : Bool :=
  match s.data with
  | [] => false
  | c :: _ => c = '/'

/-- Whether a path string ends with the separator. -/
def endsWithSep (s : String) : Bool :=
  match s.data.reverse with
  | [] => false
  | c :: _ => c = '/'

/-- Model of `os.path.join(a, b)` for the POSIX path flavour used here:
an absolute second component discards the first, otherwise the components
are joined with a single separator. -/
def os_path_join (a b : String) : String :=
  if startsWithSep b then b
  else if a = "" then b
  else if endsWithSep a then a ++ b
  else a ++ "/" ++ b

/-- Lines 124-126: the destination path of `download_file`.  The store
directory is consulted with Python truthiness (`if store_directory:`), so
`None` and the empty string both leave the bare file name. -/
def download_destination (file_path : String) (store_directory : Option String) : String :=
  let name := split_last file_path
  match store_directory with
  | Option.none => name
  | Option.some d => if d = "" then name else os_path_join d name

/-- The GET that `download_file` issues (lines 127-132): fixed URL,
`filePath` query parameter, the `historical_headers`, streaming. -/
structure DownloadCall where
  url : String
  query : List (String × String)
  headers : List (String × String)
  stream : Bool
deriving Repr, DecidableEq

/-- Construction of the streaming GET issued by `download_file`. -/
def download_file_request (client : ClientContext) (file_path : String) : DownloadCall :=
  { url := "http://historicdata.betfair.com/api/DownloadFile"
    query := [("filePath", file_path)]
    headers := historical_headers client
    stream := true }

/-- Observable result of `download_file` (lines 116-137): the path of the
file written, the bytes written to it, and the returned value. -/
structure DownloadResult where
  written_path : String
  written_content : List Nat
  returned : String
deriving Repr, DecidableEq

/-- The body of `download_file` given the chunks the streamed response
yields: lines 133-136 write each non-empty chunk in order to the
destination file, and line 137 returns the `local_filename` variable,
which lines 125-126 rebound to the joined path when a store directory was
given. -/
def download_file (file_path : String) (store_directory : Option String)
    (chunks : List (List Nat)) : DownloadResult :=
  let local_filename := download_destination file_path store_directory
  { written_path := local_filename
    written_content := (chunks.filter (fun c => !c.isEmpty)).flatten
    returned := local_filename }

/-- The raw `locals()` of `get_collections_available` (and identically of
`get_data_size` and `get_file_list`): every parameter with the value it
was bound to, in source order, `self` omitted as it carries no value. -/
def collection_op_locals (sport plan : PyVal)
    (from_day from_month from_year to_day to_month to_year : PyVal)
    (event_id event_name : PyVal)
    (market_types_collection countries_collection file_type_collection : PyVal)
    (session : PyVal) : Params :=
  [("sport", sport), ("plan", plan),
   ("from_day", from_day), ("from_month", from_month), ("from_year", from_year),
   ("to_day", to_day), ("to_month", to_month), ("to_year", to_year),
   ("event_id", event_id), ("event_name", event_name),
   ("market_types_collection", market_types_collection),
   ("countries_collection", countries_collection),
   ("file_type_collection", file_type_collection),
   ("session", session)]

/-- The parameter set `params = clean_locals(locals())` built by
`get_collections_available` (lines 32-58); `get_data_size` and
`get_file_list` build it the same way. -/
def get_collections_available_params (sport plan : PyVal)
    (from_day from_month from_year to_day to_month to_year : PyVal)
    (event_id event_name : PyVal)
    (market_types_collection countries_collection file_type_collection : PyVal)
    (session : PyVal) : Params :=
  clean_locals (collection_op_locals sport plan from_day from_month from_year
    to_day to_month to_year event_id event_name market_types_collection
    countries_collection file_type_collection session)

/-- The defaulted values of the optional arguments of the collection
operations: `event_id=None`, `event_name=None`, and the three list filters
defaulting to `[]` (lines 32-34, 60-62, 90-92). -/
def omitted_event : PyVal := PyVal.none

/-- The value an omitted list filter is bound to: the empty list. -/
def omitted_list_filter : PyVal := PyVal.list []

/-- A Python heap of list objects, for modelling default-argument
evaluation: cell `i` holds the current contents of list object `i`. -/
structure PyHeap where
  cells : List (List String)
deriving Repr, DecidableEq

/-- Allocation of a fresh list object holding `v`. -/
def PyHeap.alloc (h : PyHeap) (v : List String) : PyHeap × Nat :=
  ({ cells := h.cells ++ [v] }, h.cells.length)

/-- Current contents of list object `a`. -/
def PyHeap.get (h : PyHeap) (a : Nat) : List String :=
  h.cells.getD a []

/-- In-place mutation of list object `a` (e.g. `lst.append(...)`). -/
def PyHeap.setCell (h : PyHeap) (a : Nat) (v : List String) : PyHeap :=
  { cells := h.cells.set a v }

/-- Python semantics of `def get_collections_available(...,
market_types_collection=[], ...)`: the default expression `[]` is
evaluated once, when the `def` executes, allocating a single list object
that every later call omitting the argument is bound to. -/
def def_time_default (h : PyHeap) : PyHeap × Nat :=
  h.alloc []

/-- The value bound to `market_types_collection` in a call that omits the
argument, under the source's shared-default semantics: the current
contents of the single def-time object `defAddr`. -/
def omitted_filter_binding (h : PyHeap) (defAddr : Nat) : List String :=
  h.get defAddr

/-- Modelled from the spec: the fresh-default semantics the spec requires
(each call constructs a fresh empty sequence): a call omitting the
argument allocates a new empty list object, unaffected by any earlier
call. -/
def fresh_filter_binding (h : PyHeap) : List String :=
  ((h.alloc []).1).get (h.alloc []).2

/-- The parameter set of a collection operation when the caller omits all
optional arguments (events and list filters left at their defaults). -/
def collection_params_omitted : Params :=
  get_collections_available_params (.str "Soccer") (.str "Basic Plan")
    (.int 1) (.int 3) (.int 2021) (.int 7) (.int 3) (.int 2021)
    omitted_event omitted_event
    omitted_list_filter omitted_list_filter omitted_list_filter PyVal.none

/-- The parameter set of the same call with the three list filters passed
explicitly as empty lists. -/
def collection_params_explicit_empty : Params :=
  get_collections_available_params (.str "Soccer") (.str "Basic Plan")
    (.int 1) (.int 3) (.int 2021) (.int 7) (.int 3) (.int 2021)
    omitted_event omitted_event
    (PyVal.list []) (PyVal.list []) (PyVal.list []) PyVal.none

/-- C1: the list filters default to `[]`, not to the `None` sentinel, and
the parameter trimming drops only `None`; hence a filter the caller did
not pass is PRESENT in the payload with an empty value, and the omitted
and explicit-empty calls serialize to the very same payload — the claim's
required distinction does not exist in the code. -/
theorem omitted_and_empty_list_filters_coincide :
    collection_params_omitted = collection_params_explicit_empty ∧
    hasKey collection_params_omitted "market_types_collection" = true ∧
    hasKey collection_params_omitted "countries_collection" = true ∧
    hasKey collection_params_omitted "file_type_collection" = true ∧
    dumps collection_params_omitted = dumps collection_params_explicit_empty :=
  ⟨rfl, by decide, by decide, by decide, rfl⟩

/-- C2: with a non-empty store directory, `download_file` rebinds
`local_filename` to the joined destination path and returns it, so the
returned value is the full destination path, not the bare file name its
docstring promises. -/
theorem download_file_returns_full_path_with_store_directory :
    (download_file "data/2021/market/1.234.bz2" (Option.some "out") []).returned
      = "out/1.234.bz2" ∧
    "out/1.234.bz2" ≠ "1.234.bz2" ∧
    (download_file "data/2021/market/1.234.bz2" Option.none []).returned
      = "1.234.bz2" :=
  ⟨by decide, by decide, by decide⟩

/-- C3, counterexample: the streaming GET of `download_file` passes
`self.historical_headers`, which contains the `content-type` header —
refuting the claim that the download request carries only `ssoid`. -/
theorem download_request_carries_content_type :
    ((download_file_request ⟨"tok", PySession.pyNone, 3, 12⟩
        "data/2021/market/1.234.bz2").headers.any
      (fun kv => kv.1 == "content-type")) = true :=
  rfl

/-- C3, amended: the download request carries exactly the same two headers
as every JSON-API POST, namely `ssoid` and `content-type`. -/
theorem download_and_json_requests_share_headers (client : ClientContext)
    (file_path method : String) (params : Params) (sessionArg : PySession) :
    (download_file_request client file_path).headers = historical_headers client ∧
    (request_post client method params sessionArg).headers = historical_headers client ∧
    historical_headers client =
      [("ssoid", client.session_token), ("content-type", "application/json")] :=
  ⟨rfl, rfl, rfl⟩

/-- C4, counterexample: `response.json()` runs outside the try/except of
`request`, so an unparsable body raises the raw JSON-decoding error, which
is not of the `APIError` kind — refuting the claim that only `APIError`
escapes `request`. -/
theorem json_decode_failure_escapes_unwrapped :
    request_result "GetMyData" [] (.ok ⟨200, Option.none⟩)
      = .error ReqError.jsonDecodeFailure ∧
    ReqError.isAPIErrorKind ReqError.jsonDecodeFailure = false :=
  ⟨rfl, rfl⟩

/-- C4, amended: every failure escaping `request` is either of the
`APIError` kind or the unwrapped JSON-decoding error, and the latter
occurs exactly when the POST yielded a response whose body fails to parse
as JSON. -/
theorem request_errors_are_api_error_kind_or_raw_json_failure
    (method : String) (params : Params) (post : PostOutcome) (e : ReqError)
    (h : request_result method params post = .error e) :
    (e.isAPIErrorKind = true ∨ e = ReqError.jsonDecodeFailure) ∧
    (e = ReqError.jsonDecodeFailure ↔
      ∃ r, post = PostOutcome.ok r ∧ r.jsonBody = Option.none) := by
  cases post with
  | connErr =>
      rw [request_result] at h
      cases h
      simp [ReqError.isAPIErrorKind]
  | exn err =>
      rw [request_result] at h
      cases h
      simp [ReqError.isAPIErrorKind]
  | ok r =>
      rcases r with ⟨status, body⟩
      cases body with
      | none =>
          rw [request_result] at h
          cases h
          simp [ReqError.isAPIErrorKind]
      | some d =>
          rw [request_result, check_status_code] at h
          by_cases hs : status = 200
          · simp [hs] at h
          · simp [hs] at h
            cases h
            simp [ReqError.isAPIErrorKind]

/-- Witness for C4's amended theorem at a concrete run: a 200 response
with an unparsable body. -/
theorem request_errors_kind_witness :
    (ReqError.isAPIErrorKind ReqError.jsonDecodeFailure = true ∨
      ReqError.jsonDecodeFailure = ReqError.jsonDecodeFailure) ∧
    (ReqError.jsonDecodeFailure = ReqError.jsonDecodeFailure ↔
      ∃ r, PostOutcome.ok ⟨200, Option.none⟩ = PostOutcome.ok r ∧
        r.jsonBody = Option.none) :=
  request_errors_are_api_error_kind_or_raw_json_failure "GetMyData" []
    (PostOutcome.ok ⟨200, Option.none⟩) ReqError.jsonDecodeFailure rfl

/-- C5: a `ConnectionError` during the POST raises
`APIError(None, method, params, 'ConnectionError')`, and any other
exception `e` raises `APIError(None, method, params, e)`. -/
theorem connection_error_and_other_exception_api_error
    (method : String) (params : Params) (err : String) :
    request_result method params PostOutcome.connErr
      = .error (.apiError Option.none method params Cause.connectionErrorLit) ∧
    request_result method params (PostOutcome.exn err)
      = .error (.apiError Option.none method params (Cause.caughtExn err)) :=
  ⟨rfl, rfl⟩

/-- C6: status validation runs only after `response.json()` succeeds: on a
non-success status, an unparsable body surfaces as the JSON-parsing
failure, and a parsable body as the status-check failure. -/
theorem status_check_runs_after_json_parse
    (method : String) (params : Params) (status : Nat) (d : PyVal)
    (h : status ≠ 200) :
    request_result method params (.ok ⟨status, Option.none⟩)
      = .error ReqError.jsonDecodeFailure ∧
    request_result method params (.ok ⟨status, Option.some d⟩)
      = .error (ReqError.statusCodeFailure status) := by
  constructor
  · rfl
  · rw [request_result, check_status_code]
    simp [h]

/-- Witness for C6 at a concrete non-success status. -/
theorem status_check_order_witness :
    request_result "GetMyData" [] (.ok ⟨404, Option.none⟩)
      = .error ReqError.jsonDecodeFailure ∧
    request_result "GetMyData" [] (.ok ⟨404, Option.some (PyVal.list [])⟩)
      = .error (ReqError.statusCodeFailure 404) :=
  status_check_runs_after_json_parse "GetMyData" [] 404 (PyVal.list [])
    (by decide)

/-- The heap after the `def` statement evaluates the single default-list
expression. -/
def c7_heap_after_def : PyHeap := (def_time_default ⟨[]⟩).1

/-- The address of the single def-time default-list object. -/
def c7_default_addr : Nat := (def_time_default ⟨[]⟩).2

/-- The heap after an in-place mutation of the default object between two
calls (the first call's params dict aliases this very object). -/
def c7_heap_after_mutation : PyHeap :=
  c7_heap_after_def.setCell c7_default_addr ["1.234"]

/-- C7: the default `[]` of the list filters is evaluated once at `def`
time; both calls that omit the argument bind the same object, so a second
call observes an in-place mutation made through the first call's aliased
params — the defaults are a shared mutable instance, not fresh per call
(under the spec's fresh-per-call semantics the second call would still
see the empty list). -/
theorem shared_default_observed_across_calls :
    omitted_filter_binding c7_heap_after_def c7_default_addr = [] ∧
    omitted_filter_binding c7_heap_after_mutation c7_default_addr = ["1.234"] ∧
    (["1.234"] : List String) ≠ [] ∧
    fresh_filter_binding c7_heap_after_mutation = [] :=
  ⟨rfl, rfl, by decide, rfl⟩

/-- C8: `request` POSTs to the fixed base URL with the method appended,
with `json.dumps(params)` as body, the two standard headers and the
(connect, read) timeout pair, on the resolved session; and a success
status with a parsable body returns the parsed body unmodified. -/
theorem request_post_shape_and_success_passthrough
    (client : ClientContext) (method : String) (params : Params)
    (sessionArg : PySession) (d : PyVal) :
    request_post client method params sessionArg =
      { sessionUsed := resolve_session sessionArg client.session
        url := "https://historicdata.betfair.com/api/" ++ method
        body := dumps params
        headers := [("ssoid", client.session_token),
                    ("content-type", "application/json")]
        timeout := (client.connect_timeout, client.read_timeout) } ∧
    request_result method params (.ok ⟨200, Option.some d⟩) = .ok d :=
  ⟨rfl, rfl⟩

/-- C9: `download_file` writes the concatenation of the non-empty streamed
chunks; with no store directory the destination is the bare derived file
name (current directory), with a non-empty store directory it is the
directory joined with the derived name. -/
theorem download_file_writes_destination_and_content
    (file_path d : String) (chunks : List (List Nat)) (hd : d ≠ "") :
    (download_file file_path Option.none chunks).written_path
      = split_last file_path ∧
    (download_file file_path (Option.some d) chunks).written_path
      = os_path_join d (split_last file_path) ∧
    (download_file file_path Option.none chunks).written_content
      = (chunks.filter (fun c => !c.isEmpty)).flatten ∧
    (download_file file_path (Option.some d) chunks).written_content
      = (chunks.filter (fun c => !c.isEmpty)).flatten := by
  refine ⟨rfl, ?_, rfl, rfl⟩
  rw [download_file, download_destination]
  simp [hd]

/-- Witness for C9 at the spec's own example. -/
theorem download_file_writes_witness :
    (download_file "data/2021/market/1.234.bz2" Option.none [[1, 2], [], [3]]).written_path
      = split_last "data/2021/market/1.234.bz2" ∧
    (download_file "data/2021/market/1.234.bz2" (Option.some "out") [[1, 2], [], [3]]).written_path
      = os_path_join "out" (split_last "data/2021/market/1.234.bz2") ∧
    (download_file "data/2021/market/1.234.bz2" Option.none [[1, 2], [], [3]]).written_content
      = ([[1, 2], [], [3]].filter (fun c => !c.isEmpty)).flatten ∧
    (download_file "data/2021/market/1.234.bz2" (Option.some "out") [[1, 2], [], [3]]).written_content
      = ([[1, 2], [], [3]].filter (fun c => !c.isEmpty)).flatten :=
  download_file_writes_destination_and_content "data/2021/market/1.234.bz2"
    "out" [[1, 2], [], [3]] (by decide)

/-- C10: the session fallback on line 145 is Python truthiness, not an
is-None test: any falsy session argument (not only `None`) makes the POST
use the client context's session, and the caller's session is used
exactly when it is truthy. -/
theorem session_fallback_is_truthiness
    (client : ClientContext) (method : String) (params : Params)
    (sessionArg : PySession) :
    (sessionArg.isTruthy = false →
      (request_post client method params sessionArg).sessionUsed = client.session) ∧
    (sessionArg.isTruthy = true →
      (request_post client method params sessionArg).sessionUsed = sessionArg) := by
  constructor <;> intro h <;>
    simp [request_post, resolve_session, h]

/-- Witness for C10 at a falsy session object that is not `None`. -/
theorem session_fallback_witness :
    (request_post ⟨"tok", PySession.session 1 true, 3, 12⟩ "GetMyData" []
      (PySession.session 7 false)).sessionUsed = PySession.session 1 true :=
  (session_fallback_is_truthiness ⟨"tok", PySession.session 1 true, 3, 12⟩
    "GetMyData" [] (PySession.session 7 false)).1 rfl

end Betfair
